import Mathlib

/-!
Verification of the ECR containerd resolver (`ecr` package) against its
design specification.  The Go sources are shallowly embedded: pure helper
functions become Lean functions, network calls are abstracted as explicit
reply values handed to the embedded function, and Go's `(value, error)`
returns become `Except`/record results.
-/

namespace EcrResolver

/-! ## Media type constants

String constants imported by the Go sources from
`github.com/containerd/containerd/images` and
`github.com/opencontainers/image-spec/specs-go/v1`. -/

def MediaTypeDockerSchema1Manifest : String :=
  "application/vnd.docker.distribution.manifest.v1+prettyjws"

/-- Constant defined locally inside `parseImageManifestMediaType`
(`src/ecr/resolver.go` line 226). -/
def mediaTypeDockerSchema1ManifestUnsigned : String :=
  "application/vnd.docker.distribution.manifest.v1+json"

def MediaTypeDockerSchema2Manifest : String :=
  "application/vnd.docker.distribution.manifest.v2+json"

def MediaTypeDockerSchema2ManifestList : String :=
  "application/vnd.docker.distribution.manifest.list.v2+json"

def MediaTypeDockerSchema2Config : String :=
  "application/vnd.docker.container.image.v1+json"

def MediaTypeDockerSchema2Layer : String :=
  "application/vnd.docker.image.rootfs.diff.tar"

def MediaTypeDockerSchema2LayerGzip : String :=
  "application/vnd.docker.image.rootfs.diff.tar.gzip"

def MediaTypeDockerSchema2LayerForeign : String :=
  "application/vnd.docker.image.rootfs.foreign.diff.tar"

def MediaTypeDockerSchema2LayerForeignGzip : String :=
  "application/vnd.docker.image.rootfs.foreign.diff.tar.gzip"

def MediaTypeImageManifest : String :=
  "application/vnd.oci.image.manifest.v1+json"

def MediaTypeImageIndex : String :=
  "application/vnd.oci.image.index.v1+json"

def MediaTypeImageConfig : String :=
  "application/vnd.oci.image.config.v1+json"

def MediaTypeImageLayer : String :=
  "application/vnd.oci.image.layer.v1.tar"

def MediaTypeImageLayerGzip : String :=
  "application/vnd.oci.image.layer.v1.tar+gzip"

/-- `ecr.ImageFailureCodeImageTagDoesNotMatchDigest` from the AWS SDK. -/
def ImageFailureCodeImageTagDoesNotMatchDigest : String :=
  "ImageTagDoesNotMatchDigest"

/-- `ecr.ImageFailureCodeImageNotFound` from the AWS SDK. -/
def ImageFailureCodeImageNotFound : String := "ImageNotFound"

/-! ## Data model

AWS SDK / OCI structures as used by the resolver.  Go `*string` fields are
read through `aws.StringValue`, which maps `nil` to `""`, so they are
embedded as plain strings with `""` as the absent value. -/

/-- `ocispec.Descriptor`: mediaType, digest, size and URLs (the fields the
resolver reads). -/
structure OciDescriptor where
  mediaType : String := ""
  digest : String := ""
  size : Int := 0
  urls : List String := []
deriving Repr, DecidableEq

/-- `ecr.ImageIdentifier`: a tag and/or digest image selector. -/
structure EcrImageId where
  imageDigest : String := ""
  imageTag : String := ""
deriving Repr, DecidableEq

/-- `ecr.Image`: the identifier and raw manifest body returned by
BatchGetImage. -/
structure EcrImage where
  imageId : EcrImageId := {}
  imageManifest : String := ""
deriving Repr, DecidableEq

/-- `ecr.ImageFailure`: per-identifier failure reported by BatchGetImage. -/
structure ImageFailure where
  failureCode : String := ""
deriving Repr, DecidableEq

/-- `ecr.BatchGetImageOutput`. -/
structure BatchGetImageOutput where
  images : List EcrImage := []
  failures : List ImageFailure := []
deriving Repr, DecidableEq

/-- `ecr.BatchGetImageInput` (the fields the resolver populates). -/
structure BatchGetImageInput where
  registryId : String := ""
  repositoryName : String := ""
  imageIds : List EcrImageId := []
  acceptedMediaTypes : List String := []
deriving Repr, DecidableEq

/-! ## Manifest media-type sniffer (`parseImageManifestMediaType`)

`src/ecr/resolver.go` lines 205-281.  The Go function first runs
`json.Unmarshal` into a `manifestProbe`; that external JSON decoding is
abstracted: the embedded function receives `Option ManifestProbe`, `none`
standing for a parse failure. -/

/-- `manifestProbe` (`src/ecr/resolver.go` lines 207-220).  The Go
`Signatures` field has type `json.RawMessage`: it stores the raw JSON text
of the `signatures` field and is empty exactly when the field is absent
from the document.  In particular a present-but-empty JSON array is the
two-character raw text of the array brackets, which is a non-empty raw
message.  It is embedded here as that raw text, `""` when absent. -/
structure ManifestProbe where
  schemaVersion : Int := 0
  mediaType : String := ""
  signatures : String := ""
  manifests : List OciDescriptor := []
  config : OciDescriptor := {}
deriving Repr, DecidableEq

/-- The `for _, elm := range manifest.Manifests` loop of
`parseImageManifestMediaType` (lines 259-270): return on the first element
whose mediaType is the OCI image manifest (giving the OCI index type) or
the Docker schema-2 manifest (giving the Docker manifest-list type);
falling off the loop defaults to the OCI index type. -/
def manifestsElemType : List OciDescriptor → String
  | [] => MediaTypeImageIndex
  | elm :: rest =>
    if elm.mediaType = MediaTypeImageManifest then MediaTypeImageIndex
    else if elm.mediaType = MediaTypeDockerSchema2Manifest then
      MediaTypeDockerSchema2ManifestList
    else manifestsElemType rest

/-- `parseImageManifestMediaType` (`src/ecr/resolver.go` lines 223-281)
over the result of the JSON probe decoding (`none` = parse failure). -/
def parseImageManifestMediaType (parsed : Option ManifestProbe) : String :=
  match parsed with
  | none =>
    -- json.Unmarshal error: default to schema 2.
    MediaTypeDockerSchema2Manifest
  | some manifest =>
    -- Defer to the manifest declared type.
    if manifest.mediaType ≠ "" then manifest.mediaType
    else if manifest.schemaVersion = 2 then
      if manifest.config.mediaType = MediaTypeDockerSchema2Config then
        MediaTypeDockerSchema2Manifest
      else if manifest.config.mediaType = MediaTypeImageConfig then
        MediaTypeImageManifest
      else if manifest.manifests = [] then MediaTypeImageManifest
      else manifestsElemType manifest.manifests
    else if manifest.schemaVersion = 1 then
      -- Signed Docker Schema 1: len(manifest.Signatures) != 0.
      if manifest.signatures ≠ "" then MediaTypeDockerSchema1Manifest
      else mediaTypeDockerSchema1ManifestUnsigned
    else ""

/-! ## Reference model

The reference model (`ECRSpec` in the repository's `ref.go`) is not among
the given sources; only its accessors are called by the resolver, fetcher
and pusher.  It is embedded as a record of accessor results. -/

/-- Modelled from the spec: the Reference Model (`ECRSpec`), whose source
file is not included.  Per the spec it is an immutable value
`\x7baccountID, region, repository, object\x7d` where `object` encodes zero
or one tag and zero or one digest (`tag`, `@digest`, or `tag@digest`).
The fields below are the accessor results the included sources read:
`Registry()` (the account ID), `Repository`, `Object`, `ImageID()` (the
tag/digest image selector), `Spec().Digest().String()` (the digest
embedded in the original reference, `""` when none), and `Canonical()`
(the canonical reference string). -/
structure ECRSpecM where
  registry : String := ""
  repository : String := ""
  object : String := ""
  imageID : EcrImageId := {}
  expectedDigest : String := ""
  canonical : String := ""
deriving Repr, DecidableEq

/-- Split a character list at the first `@`: the part before it and the
part after it (the whole list and `[]` when there is no `@`). -/
def splitAtFirstAt : List Char → List Char × List Char
  | [] => ([], [])
  | c :: rest =>
    if c = '@' then ([], rest)
    else
      let r := splitAtFirstAt rest
      (c :: r.1, r.2)

/-- Modelled from the spec: `ECRSpec.TagDigest()`, whose source file is
not included.  Per the spec's grammar the object part is `tag`, `@digest`,
or `tag@digest`: the tag is what stands before the first `@`, the digest
what stands after it (`""` when there is no `@`). -/
def tagDigest (object : String) : String × String :=
  let p := splitAtFirstAt object.toList
  (String.mk p.1, String.mk p.2)

/-! ## Base image lookup (`src/ecr/base.go`)

`runGetImage` submits a BatchGetImage call and post-processes the reply.
The network call itself is abstracted: the embedded function receives the
client's answer as `Except String BatchGetImageOutput` (`.error` standing
for a transport/API error return). -/

/-- Errors produced by the embedded `runGetImage`:
the transport error passed through unchanged, `errImageNotFound`
(`"ecr: image not found"`), and `reference.ErrInvalid`. -/
inductive GetImageError where
  | clientError (msg : String)
  | imageNotFound
  | invalidReference
deriving Repr, DecidableEq

/-- The `for _, failure := range batchGetImageOutput.Failures` loop of
`runGetImage` (`src/ecr/base.go` lines 99-108): returns `errImageNotFound`
on the first failure whose code is `ImageTagDoesNotMatchDigest` or
`ImageNotFound`. -/
def hasRecognizedFailure : List ImageFailure → Bool
  | [] => false
  | failure :: rest =>
    if failure.failureCode = ImageFailureCodeImageTagDoesNotMatchDigest then true
    else if failure.failureCode = ImageFailureCodeImageNotFound then true
    else hasRecognizedFailure rest

/-- `runGetImage` fills in the registry and repository on the input
(`src/ecr/base.go` lines 85-86). -/
def runGetImageInput (spec : ECRSpecM) (input : BatchGetImageInput) :
    BatchGetImageInput :=
  { input with registryId := spec.registry, repositoryName := spec.repository }

/-- `ecrBase.runGetImage` (`src/ecr/base.go` lines 84-114), given the
client's reply to the submitted BatchGetImage call. -/
def runGetImage (clientReply : Except String BatchGetImageOutput) :
    Except GetImageError (List EcrImage) :=
  match clientReply with
  | .error e => .error (.clientError e)
  | .ok out =>
    if out.images.length ≠ 1 then
      if hasRecognizedFailure out.failures then .error .imageNotFound
      else .error .invalidReference
    else .ok out.images

/-- The BatchGetImage input built by `ecrBase.getImageByDescriptor`
(`src/ecr/base.go` lines 56-64): one image identifier holding exactly the
descriptor's digest, and the descriptor's media type as the accepted media
type when it is non-empty. -/
def getImageByDescriptorInput (desc : OciDescriptor) : BatchGetImageInput :=
  { imageIds := [{ imageDigest := desc.digest }]
    acceptedMediaTypes := if desc.mediaType ≠ "" then [desc.mediaType] else [] }

/-- `ecrBase.getImageByDescriptor` (`src/ecr/base.go` lines 55-71): runs
the lookup and returns the first image of the reply (in bounds by
`runGetImage`, embedded with `headD`). -/
def getImageByDescriptor (clientReply : Except String BatchGetImageOutput) :
    Except GetImageError EcrImage :=
  match runGetImage clientReply with
  | .error e => .error e
  | .ok imgs => .ok (imgs.headD {})

/-- The BatchGetImage input built by `ecrBase.getImage`
(`src/ecr/base.go` lines 73-76): the spec's own image identifier. -/
def getImageInput (spec : ECRSpecM) : BatchGetImageInput :=
  { imageIds := [spec.imageID] }

/-- `ecrBase.getImage` (`src/ecr/base.go` lines 73-81). -/
def getImage (clientReply : Except String BatchGetImageOutput) :
    Except GetImageError EcrImage :=
  match runGetImage clientReply with
  | .error e => .error e
  | .ok imgs => .ok (imgs.headD {})

/-! ## Resolver (`ecrResolver.Resolve`, `src/ecr/resolver.go` lines 129-194) -/

/-- `supportedImageMediaTypes`.  Its defining source file is not included;
the list is fixed by the spec ("the registry's supported manifest media
types") and by the manifest branch of the fetcher's media-type dispatch,
which enumerates exactly these five manifest/index types. -/
def supportedImageMediaTypes : List String :=
  [MediaTypeImageManifest, MediaTypeImageIndex,
   MediaTypeDockerSchema2Manifest, MediaTypeDockerSchema2ManifestList,
   MediaTypeDockerSchema1Manifest]

/-- The accepted-media-type loop of `Resolve` (`src/ecr/resolver.go` lines
173-180): walk the accepted list, break on a match, and fail when the last
entry is passed without a match (an empty list never rejects). -/
def mediaTypeAccepted (mediaType : String) : List String → Bool
  | [] => true
  | accepted :: rest =>
    if mediaType = accepted then true
    else if rest = [] then false
    else mediaTypeAccepted mediaType rest

/-- Error classes returned by `Resolve`. -/
inductive ResolveError where
  | objectRequired
  | clientError (msg : String)
  | invalidReference
  | failedPrecondition (msg : String)
deriving Repr, DecidableEq

/-- The Go triple `(string, ocispec.Descriptor, error)` returned by
`Resolve`. -/
structure ResolveResult where
  ref : String
  desc : OciDescriptor
  err : Option ResolveError
deriving Repr, DecidableEq

/-- `ecrResolver.Resolve` (`src/ecr/resolver.go` lines 129-194) after
reference parsing, given the already-parsed spec.  `decodeProbe` abstracts
`json.Unmarshal` into `manifestProbe` (`none` = parse failure), and
`clientReply` is the answer of the abstracted BatchGetImage call. -/
def resolve (decodeProbe : String → Option ManifestProbe) (spec : ECRSpecM)
    (clientReply : Except String BatchGetImageOutput) : ResolveResult :=
  if spec.object = "" then ⟨"", {}, some .objectRequired⟩
  else
    match clientReply with
    | .error e => ⟨"", {}, some (.clientError e)⟩
    | .ok out =>
      match out.images with
      | [] => ⟨"", {}, some .invalidReference⟩
      | ecrImage :: _ =>
        let mediaType :=
          parseImageManifestMediaType (decodeProbe ecrImage.imageManifest)
        if ¬ mediaTypeAccepted mediaType supportedImageMediaTypes then
          ⟨"", {}, some (.failedPrecondition "resolved mediaType not in accepted types")⟩
        else
          let desc : OciDescriptor :=
            { digest := ecrImage.imageId.imageDigest
              mediaType := mediaType
              size := (ecrImage.imageManifest.length : Int) }
          if spec.expectedDigest ≠ "" ∧ desc.digest ≠ spec.expectedDigest then
            ⟨"", {}, some (.failedPrecondition "resolved image digest mismatch")⟩
          else ⟨spec.canonical, desc, none⟩

/-! ## Fetcher (`ecrFetcher.Fetch` and helpers, `src/unnamed/part_002`) -/

/-- The branch chosen by the media-type switch of `ecrFetcher.Fetch`
(`src/unnamed/part_002` lines 52-77). -/
inductive FetchPath where
  | manifest
  | layer
  | foreignLayer
  | unimplementedType
deriving Repr, DecidableEq

/-- The manifest/index media types of `Fetch`'s first switch branch. -/
def manifestMediaTypes : List String :=
  [MediaTypeImageManifest, MediaTypeImageIndex,
   MediaTypeDockerSchema1Manifest, MediaTypeDockerSchema2Manifest,
   MediaTypeDockerSchema2ManifestList]

/-- The layer/config blob media types of `Fetch`'s second switch branch. -/
def layerMediaTypes : List String :=
  [MediaTypeDockerSchema2Layer, MediaTypeDockerSchema2LayerGzip,
   MediaTypeDockerSchema2Config, MediaTypeImageLayerGzip,
   MediaTypeImageLayer, MediaTypeImageConfig]

/-- The foreign-layer media types of `Fetch`'s third switch branch. -/
def foreignLayerMediaTypes : List String :=
  [MediaTypeDockerSchema2LayerForeign, MediaTypeDockerSchema2LayerForeignGzip]

/-- The media-type switch of `ecrFetcher.Fetch`. -/
def fetchDispatch (desc : OciDescriptor) : FetchPath :=
  if desc.mediaType ∈ manifestMediaTypes then .manifest
  else if desc.mediaType ∈ layerMediaTypes then .layer
  else if desc.mediaType ∈ foreignLayerMediaTypes then .foreignLayer
  else .unimplementedType

/-- The BatchGetImage input issued by `ecrFetcher.fetchManifest`
(`src/unnamed/part_002` lines 81-104): images with an empty descriptor
digest are fetched by the spec's own reference identifier (`getImage`),
all others by exactly the descriptor's digest (`getImageByDescriptor`);
both go through `runGetImage`, which fills in registry and repository. -/
def fetchManifestInput (spec : ECRSpecM) (desc : OciDescriptor) :
    BatchGetImageInput :=
  runGetImageInput spec
    (if desc.digest = "" then getImageInput spec
     else getImageByDescriptorInput desc)

/-- `ecrFetcher.fetchManifest` (`src/unnamed/part_002` lines 81-104),
given the client's reply to the issued call.  On success the Go code wraps
the returned image's raw manifest bytes in an in-memory reader
(`ioutil.NopCloser(bytes.NewReader(...))`); the embedding returns that
byte string. -/
def fetchManifest (desc : OciDescriptor)
    (clientReply : Except String BatchGetImageOutput) :
    Except GetImageError String :=
  match (if desc.digest = "" then getImage clientReply
         else getImageByDescriptor clientReply) with
  | .error e => .error e
  | .ok image => .ok image.imageManifest

/-- Outcome of `ecrFetcher.fetchForeignLayer` (`src/unnamed/part_002`
lines 125-132): either an HTTP request is issued against a URL (via
`fetchLayerURL`), or the unchecked `desc.URLs[0]` index is out of bounds
(a Go panic, not an error return). -/
inductive ForeignFetchOutcome where
  | request (url : String)
  | panicOutOfBounds
deriving Repr, DecidableEq

/-- Result of the embedded `fetchForeignLayer`: the outcome, whether the
missing-URL message was logged, and how many registry-client calls were
made (the source makes none on this path). -/
structure ForeignFetchResult where
  outcome : ForeignFetchOutcome
  logged : Bool
  registryCalls : Nat
deriving Repr, DecidableEq

/-- `ecrFetcher.fetchForeignLayer` (`src/unnamed/part_002` lines 125-132):
an empty URL list is only logged (`cannot pull foreign layer without
URL`), then `desc.URLs[0]` is indexed unconditionally; no registry-client
call is made. -/
def fetchForeignLayer (desc : OciDescriptor) : ForeignFetchResult :=
  { outcome :=
      match desc.urls with
      | [] => .panicOutOfBounds
      | url :: _ => .request url
    logged := desc.urls.length < 1
    registryCalls := 0 }

/-! ## Parallel layer download (`ecrFetcher.fetchLayerHtcat`,
`src/unnamed/part_002` lines 171-194)

The htcat ranged transfer and the `io.Pipe` are abstracted: an
`HtcatOutcome` records how many bytes `htc.WriteTo(pw)` wrote to the pipe
before returning and the error it returned, if any.  An `io.PipeWriter`
closed with `Close()` ends the read side with a clean `io.EOF`; only
`CloseWithError` would surface an error to the reader. -/

/-- Abstracted result of `htc.WriteTo(pw)`: bytes written to the pipe
before returning, and the returned error (if any). -/
structure HtcatOutcome where
  written : Nat
  err : Option String := none
deriving Repr, DecidableEq

/-- What the reader of the returned pipe observes: the number of readable
bytes and whether the stream terminates with a clean `io.EOF` (`true`) or
with an error (`false`, the `CloseWithError` case). -/
structure PipeStream where
  bytes : Nat
  cleanEOF : Bool
deriving Repr, DecidableEq

/-- Result of the embedded `fetchLayerHtcat`: the stream the caller reads,
and whether the download failure was logged. -/
structure HtcatFetchResult where
  stream : PipeStream
  logged : Bool
deriving Repr, DecidableEq

/-- `ecrFetcher.fetchLayerHtcat` (`src/unnamed/part_002` lines 171-194):
the goroutine runs `defer pw.Close()` and logs the `WriteTo` error when
there is one.  Because the pipe writer is closed with `Close()` on every
path — never `CloseWithError` — the reader always observes the written
prefix followed by a clean `io.EOF`. -/
def fetchLayerHtcat (outcome : HtcatOutcome) : HtcatFetchResult :=
  { stream := { bytes := outcome.written, cleanEOF := true }
    logged := outcome.err.isSome }

/-! ## Pusher (`ecrResolver.Pusher`, `src/ecr/resolver.go` lines 298-327) -/

/-- Result of the embedded `Pusher`: the Go `(remotes.Pusher, error)`
return collapsed to `Except` (the `.ok` case standing for the constructed
`ecrPusher`), plus the number of registry-client calls made — the source
`Pusher` makes none on any path, and writers are only created later by
`Push` on the returned `ecrPusher`. -/
structure PusherResult where
  result : Except String Unit
  registryCalls : Nat
deriving Repr

/-- `ecrResolver.Pusher` (`src/ecr/resolver.go` lines 298-327) after
reference parsing, over the object part of the parsed reference:
a digest without a tag is rejected, then a missing digest is rejected,
otherwise the `ecrPusher` is constructed. -/
def pusher (object : String) : PusherResult :=
  let td := tagDigest object
  if td.1 = "" ∧ td.2 ≠ "" then
    { result := .error "pusher: cannot use digest reference for push location"
      registryCalls := 0 }
  else if td.2 = "" then
    { result := .error "pusher: root descriptor missing from push reference"
      registryCalls := 0 }
  else { result := .ok (), registryCalls := 0 }

/-! ## Helper lemmas -/

/-- Spec-side reading of the child-manifest inspection (§4.2 of the spec,
first-match form): the first listed manifest whose media type is the OCI
image manifest or the Docker schema-2 manifest decides the result (OCI
index, respectively Docker manifest list); without such an entry the
result defaults to the OCI index type. -/
def firstManifestEntryDecision (ms : List OciDescriptor) : String :=
  match ms.find? (fun d =>
      d.mediaType == MediaTypeImageManifest ||
      d.mediaType == MediaTypeDockerSchema2Manifest) with
  | some d =>
    if d.mediaType = MediaTypeImageManifest then MediaTypeImageIndex
    else MediaTypeDockerSchema2ManifestList
  | none => MediaTypeImageIndex

/-- The source loop over child manifests computes exactly the first-match
decision. -/
theorem manifestsElemType_eq_firstDecision (ms : List OciDescriptor) :
    manifestsElemType ms = firstManifestEntryDecision ms := by
  induction ms with
  | nil => rfl
  | cons d rest ih =>
    by_cases h1 : d.mediaType = MediaTypeImageManifest
    · simp [manifestsElemType, firstManifestEntryDecision, List.find?_cons, h1]
    · by_cases h2 : d.mediaType = MediaTypeDockerSchema2Manifest
      · simp [manifestsElemType, firstManifestEntryDecision, List.find?_cons,
          h1, h2]
      · have hcond : (d.mediaType == MediaTypeImageManifest ||
            d.mediaType == MediaTypeDockerSchema2Manifest) = false := by
          simp [h1, h2]
        simp only [manifestsElemType, if_neg h1, if_neg h2, ih]
        simp only [firstManifestEntryDecision, List.find?_cons, hcond]

/-! ## Claim theorems -/

/-- C6: for every manifest document that parses as JSON and carries a
non-empty explicit `mediaType` field, the sniffer returns exactly that
field's value, regardless of `schemaVersion` and of any other fields. -/
theorem sniff_explicit_media_type (m : ManifestProbe) (h : m.mediaType ≠ "") :
    parseImageManifestMediaType (some m) = m.mediaType := by
  simp [parseImageManifestMediaType, h]

theorem sniff_explicit_media_type_witness :
    parseImageManifestMediaType
      (some { mediaType := "application/x-custom", schemaVersion := 7 }) =
      "application/x-custom" :=
  sniff_explicit_media_type
    { mediaType := "application/x-custom", schemaVersion := 7 } (by decide)

/-- C4 counterexample: a schema-1 document with no explicit mediaType
whose `signatures` field is a present but empty JSON array (raw text of
the two array brackets, a non-empty raw message) is classified as the
SIGNED legacy type, not the unsigned one the claim requires for it. -/
theorem sniff_schema1_empty_array_counterexample :
    parseImageManifestMediaType
      (some { schemaVersion := 1, signatures := "[]" }) =
      MediaTypeDockerSchema1Manifest ∧
    MediaTypeDockerSchema1Manifest ≠ mediaTypeDockerSchema1ManifestUnsigned :=
  ⟨by decide, by decide⟩

/-- C4 (amended): for a schema-1 document with no explicit mediaType, a
non-empty `signatures` raw message (any present `signatures` field,
including a present-but-empty JSON array) yields the signed legacy type,
and an absent `signatures` field (empty raw message) yields the unsigned
legacy type. -/
theorem sniff_schema1_signatures (m : ManifestProbe)
    (h1 : m.schemaVersion = 1) (h2 : m.mediaType = "") :
    (m.signatures ≠ "" →
      parseImageManifestMediaType (some m) = MediaTypeDockerSchema1Manifest) ∧
    (m.signatures = "" →
      parseImageManifestMediaType (some m) = mediaTypeDockerSchema1ManifestUnsigned) := by
  constructor <;> intro hs <;>
    simp [parseImageManifestMediaType, h1, h2, hs]

theorem sniff_schema1_signatures_witness :
    parseImageManifestMediaType (some { schemaVersion := 1 }) =
      mediaTypeDockerSchema1ManifestUnsigned :=
  (sniff_schema1_signatures { schemaVersion := 1 } rfl rfl).2 rfl

/-- C5 counterexample: a schema-2 document with no explicit mediaType, an
unrecognized config media type, and child manifests listing a Docker
schema-2 entry BEFORE an OCI image-manifest entry.  The list contains an
OCI image-manifest entry, so the claim requires the OCI image-index type,
but the sniffer returns the Docker manifest-list type (the loop decides on
the first matching entry). -/
theorem sniff_mixed_manifest_list_counterexample :
    (([{ mediaType := MediaTypeDockerSchema2Manifest },
       { mediaType := MediaTypeImageManifest }] : List OciDescriptor).any
        (fun d => d.mediaType == MediaTypeImageManifest) = true) ∧
    parseImageManifestMediaType
      (some { schemaVersion := 2,
              manifests := [{ mediaType := MediaTypeDockerSchema2Manifest },
                            { mediaType := MediaTypeImageManifest }] }) =
      MediaTypeDockerSchema2ManifestList ∧
    MediaTypeDockerSchema2ManifestList ≠ MediaTypeImageIndex :=
  ⟨by decide, by decide, by decide⟩

/-- C5 (amended): for a schema-2 document with no explicit mediaType, no
recognized config media type, and a non-empty manifests list, the FIRST
entry whose media type is the OCI image manifest or the Docker schema-2
manifest decides the result (OCI entry: OCI image index; Docker entry:
Docker manifest list); when no entry has either type the result defaults
to the OCI image-index type. -/
theorem sniff_manifest_list_first_match (m : ManifestProbe)
    (h1 : m.schemaVersion = 2) (h2 : m.mediaType = "")
    (h3 : m.config.mediaType ≠ MediaTypeDockerSchema2Config)
    (h4 : m.config.mediaType ≠ MediaTypeImageConfig)
    (h5 : m.manifests ≠ []) :
    parseImageManifestMediaType (some m) =
      firstManifestEntryDecision m.manifests ∧
    ((∀ d ∈ m.manifests, d.mediaType ≠ MediaTypeImageManifest ∧
        d.mediaType ≠ MediaTypeDockerSchema2Manifest) →
      parseImageManifestMediaType (some m) = MediaTypeImageIndex) := by
  have hmain : parseImageManifestMediaType (some m) =
      firstManifestEntryDecision m.manifests := by
    rw [← manifestsElemType_eq_firstDecision]
    simp [parseImageManifestMediaType, h1, h2, h3, h4, h5]
  refine ⟨hmain, fun hnone => ?_⟩
  rw [hmain]
  have hfind : m.manifests.find? (fun d =>
      d.mediaType == MediaTypeImageManifest ||
      d.mediaType == MediaTypeDockerSchema2Manifest) = none := by
    rw [List.find?_eq_none]
    intro d hd
    have := hnone d hd
    simp [this.1, this.2]
  simp [firstManifestEntryDecision, hfind]

theorem sniff_manifest_list_first_match_witness :
    parseImageManifestMediaType
      (some { schemaVersion := 2,
              manifests := [{ mediaType := MediaTypeImageManifest }] }) =
      firstManifestEntryDecision [{ mediaType := MediaTypeImageManifest }] :=
  (sniff_manifest_list_first_match
    { schemaVersion := 2, manifests := [{ mediaType := MediaTypeImageManifest }] }
    rfl rfl (by decide) (by decide) (by decide)).1

/-- C1: a push reference whose object part holds a digest but no tag is
rejected with the `cannot push by digest` error, and one holding no digest
at all is rejected with the `root descriptor missing` error; both
rejections return an error instead of an `ecrPusher` (so no writer can
ever be created from them) and make zero registry calls. -/
theorem pusher_rejects_bad_references (object : String) :
    ((tagDigest object).1 = "" → (tagDigest object).2 ≠ "" →
      pusher object =
        { result := .error "pusher: cannot use digest reference for push location"
          registryCalls := 0 }) ∧
    ((tagDigest object).2 = "" →
      pusher object =
        { result := .error "pusher: root descriptor missing from push reference"
          registryCalls := 0 }) := by
  constructor
  · intro h1 h2
    simp [pusher, h1, h2]
  · intro h2
    simp [pusher, h2]

theorem pusher_rejects_bad_references_witness :
    pusher "@sha256:0123" =
      { result := .error "pusher: cannot use digest reference for push location"
        registryCalls := 0 } ∧
    pusher "latest" =
      { result := .error "pusher: root descriptor missing from push reference"
        registryCalls := 0 } :=
  ⟨(pusher_rejects_bad_references "@sha256:0123").1 (by decide) (by decide),
   (pusher_rejects_bad_references "latest").2 (by decide)⟩

/-- C2: when the input reference embeds an expected digest, a resolved
image whose digest differs makes `Resolve` return the
`resolved image digest mismatch` FailedPrecondition error with an empty
reference and empty descriptor, while an equal digest passes the check and
`Resolve` returns the canonical reference and the resolved descriptor. -/
theorem resolve_digest_mismatch_check
    (decodeProbe : String → Option ManifestProbe) (spec : ECRSpecM)
    (out : BatchGetImageOutput) (img : EcrImage) (rest : List EcrImage)
    (hobj : spec.object ≠ "") (himgs : out.images = img :: rest)
    (hacc : mediaTypeAccepted
      (parseImageManifestMediaType (decodeProbe img.imageManifest))
      supportedImageMediaTypes = true)
    (hexp : spec.expectedDigest ≠ "") :
    (img.imageId.imageDigest ≠ spec.expectedDigest →
      resolve decodeProbe spec (.ok out) =
        ⟨"", {}, some (.failedPrecondition "resolved image digest mismatch")⟩) ∧
    (img.imageId.imageDigest = spec.expectedDigest →
      resolve decodeProbe spec (.ok out) =
        ⟨spec.canonical,
         { digest := img.imageId.imageDigest
           mediaType := parseImageManifestMediaType (decodeProbe img.imageManifest)
           size := (img.imageManifest.length : Int) },
         none⟩) := by
  constructor <;> intro hd <;>
    simp [resolve, hobj, himgs, hacc, hexp, hd]

theorem resolve_digest_mismatch_check_witness :
    resolve (fun _ => some { mediaType := MediaTypeImageManifest })
      { object := "latest", expectedDigest := "sha256:aaa", canonical := "c" }
      (.ok { images := [{ imageId := { imageDigest := "sha256:bbb" },
                          imageManifest := "MANIFEST" }] }) =
      ⟨"", {}, some (.failedPrecondition "resolved image digest mismatch")⟩ :=
  (resolve_digest_mismatch_check (fun _ => some { mediaType := MediaTypeImageManifest })
    { object := "latest", expectedDigest := "sha256:aaa", canonical := "c" }
    { images := [{ imageId := { imageDigest := "sha256:bbb" },
                   imageManifest := "MANIFEST" }] }
    { imageId := { imageDigest := "sha256:bbb" }, imageManifest := "MANIFEST" }
    [] (by decide) rfl (by decide) (by decide)).1 (by decide)

/-- C7: a BatchGetImage reply with zero images and zero failures makes
`Resolve` return `reference.ErrInvalid` together with an empty reference
string and an empty (zero-valued) descriptor. -/
theorem resolve_empty_reply (decodeProbe : String → Option ManifestProbe)
    (spec : ECRSpecM) (out : BatchGetImageOutput) (hobj : spec.object ≠ "")
    (himgs : out.images = []) (_hfail : out.failures = []) :
    resolve decodeProbe spec (.ok out) = ⟨"", {}, some .invalidReference⟩ := by
  simp [resolve, hobj, himgs]

theorem resolve_empty_reply_witness :
    resolve (fun _ => none) { object := "latest" } (.ok {}) =
      ⟨"", {}, some .invalidReference⟩ :=
  resolve_empty_reply (fun _ => none) { object := "latest" } {}
    (by decide) rfl rfl

/-- C3 counterexample: a parallel-range download whose ranged transfer
fails after writing nothing still hands the caller a stream that ends in a
clean `io.EOF` (the goroutine closes the pipe with `Close()`, never
`CloseWithError`), so the caller does observe a clean end-of-stream with
fewer bytes than the payload even though the failure was logged — contrary
to the claimed broken/erroring termination. -/
theorem htcat_failure_clean_eof_counterexample :
    (fetchLayerHtcat { written := 0, err := some "connection reset" }).logged
      = true ∧
    (fetchLayerHtcat { written := 0, err := some "connection reset" }).stream
      = { bytes := 0, cleanEOF := true } :=
  ⟨rfl, rfl⟩

/-- C3 (amended): when the parallel-range transfer fails partway, the
failure is logged, but the stream handed to the caller delivers exactly
the bytes written before the failure and then terminates with a clean
end-of-stream — the truncation is not surfaced as a stream error. -/
theorem htcat_failure_logged_clean_close (o : HtcatOutcome) :
    (fetchLayerHtcat o).logged = o.err.isSome ∧
    (fetchLayerHtcat o).stream = { bytes := o.written, cleanEOF := true } :=
  ⟨rfl, rfl⟩

/-- C8: for a descriptor with a manifest/index media type, `Fetch` takes
the manifest path; the BatchGetImage request it issues selects by the
fetcher's bound reference identifier when the descriptor digest is empty
and by exactly the descriptor's digest otherwise; and a successful lookup
returns the returned image's raw manifest bytes. -/
theorem fetch_manifest_by_tag_or_digest (spec : ECRSpecM)
    (desc : OciDescriptor) (hmt : desc.mediaType ∈ manifestMediaTypes) :
    fetchDispatch desc = .manifest ∧
    (desc.digest = "" →
      fetchManifestInput spec desc =
        { registryId := spec.registry, repositoryName := spec.repository
          imageIds := [spec.imageID], acceptedMediaTypes := [] }) ∧
    (desc.digest ≠ "" →
      (fetchManifestInput spec desc).imageIds =
        [{ imageDigest := desc.digest, imageTag := "" }]) ∧
    (∀ (img : EcrImage) (failures : List ImageFailure),
      fetchManifest desc (.ok { images := [img], failures := failures }) =
        .ok img.imageManifest) := by
  refine ⟨?_, ?_, ?_, ?_⟩
  · simp [fetchDispatch, hmt]
  · intro h
    simp [fetchManifestInput, runGetImageInput, getImageInput, h]
  · intro h
    simp [fetchManifestInput, runGetImageInput, getImageByDescriptorInput, h]
  · intro img failures
    by_cases h : desc.digest = "" <;>
      simp [fetchManifest, getImage, getImageByDescriptor, runGetImage, h]

theorem fetch_manifest_by_tag_or_digest_witness :
    (fetchManifestInput { registry := "12345", repository := "repo" }
        { mediaType := MediaTypeImageManifest, digest := "sha256:d" }).imageIds =
      [{ imageDigest := "sha256:d", imageTag := "" }] ∧
    fetchManifest { mediaType := MediaTypeImageManifest, digest := "sha256:d" }
        (.ok { images := [{ imageManifest := "BODY" }] }) = .ok "BODY" :=
  ⟨(fetch_manifest_by_tag_or_digest { registry := "12345", repository := "repo" }
      { mediaType := MediaTypeImageManifest, digest := "sha256:d" }
      (by decide)).2.2.1 (by decide),
   (fetch_manifest_by_tag_or_digest { registry := "12345", repository := "repo" }
      { mediaType := MediaTypeImageManifest, digest := "sha256:d" }
      (by decide)).2.2.2 { imageManifest := "BODY" } []⟩

/-- C9: for a descriptor with a foreign-layer media type, `Fetch` takes
the foreign-layer path, which makes zero registry-client calls and issues
its HTTP request against exactly the first element of the descriptor's
URLs; with an empty URLs list it does not return an error — it logs and
then performs the out-of-bounds `URLs[0]` index (a panic), so the
operation is not total on that input. -/
theorem fetch_foreign_layer_first_url (desc : OciDescriptor)
    (hmt : desc.mediaType ∈ foreignLayerMediaTypes) :
    fetchDispatch desc = .foreignLayer ∧
    (fetchForeignLayer desc).registryCalls = 0 ∧
    (∀ u us, desc.urls = u :: us →
      (fetchForeignLayer desc).outcome = .request u ∧
      (fetchForeignLayer desc).logged = false) ∧
    (desc.urls = [] →
      (fetchForeignLayer desc).outcome = .panicOutOfBounds ∧
      (fetchForeignLayer desc).logged = true) := by
  refine ⟨?_, rfl, ?_, ?_⟩
  · have h1 : desc.mediaType ∉ manifestMediaTypes := by
      simp only [foreignLayerMediaTypes, List.mem_cons, List.mem_singleton,
        List.not_mem_nil, or_false] at hmt
      rcases hmt with h | h <;> rw [h] <;> decide
    have h2 : desc.mediaType ∉ layerMediaTypes := by
      simp only [foreignLayerMediaTypes, List.mem_cons, List.mem_singleton,
        List.not_mem_nil, or_false] at hmt
      rcases hmt with h | h <;> rw [h] <;> decide
    simp [fetchDispatch, h1, h2, hmt]
  · intro u us h
    simp [fetchForeignLayer, h]
  · intro h
    simp [fetchForeignLayer, h]

theorem fetch_foreign_layer_first_url_witness :
    (fetchForeignLayer { mediaType := MediaTypeDockerSchema2LayerForeign,
                         urls := ["https://example.com/layer"] }).outcome =
      .request "https://example.com/layer" ∧
    (fetchForeignLayer { mediaType := MediaTypeDockerSchema2LayerForeign }).outcome
      = .panicOutOfBounds :=
  ⟨((fetch_foreign_layer_first_url
      { mediaType := MediaTypeDockerSchema2LayerForeign,
        urls := ["https://example.com/layer"] } (by decide)).2.2.1
      "https://example.com/layer" [] rfl).1,
   ((fetch_foreign_layer_first_url
      { mediaType := MediaTypeDockerSchema2LayerForeign } (by decide)).2.2.2
      rfl).1⟩

/-- C10: `runGetImage` succeeds only on replies holding exactly one image
(so the unchecked first-element access in `getImage` and
`getImageByDescriptor` is always in bounds, and both return that sole
image); any reply with an image count other than one becomes
`errImageNotFound` when a recognized failure code is present and
`reference.ErrInvalid` otherwise. -/
theorem run_get_image_single_image (reply : Except String BatchGetImageOutput)
    (out : BatchGetImageOutput) (h : reply = .ok out) :
    (∀ imgs, runGetImage reply = .ok imgs →
      imgs = out.images ∧ imgs.length = 1 ∧ imgs ≠ [] ∧
      getImage reply = .ok (imgs.headD {}) ∧
      getImageByDescriptor reply = .ok (imgs.headD {})) ∧
    (out.images.length ≠ 1 →
      runGetImage reply =
        .error (if hasRecognizedFailure out.failures then .imageNotFound
                else .invalidReference)) := by
  subst h
  constructor
  · intro imgs hok
    by_cases hlen : out.images.length = 1
    · have hrun : runGetImage (.ok out) = .ok out.images := by
        simp [runGetImage, hlen]
      rw [hrun] at hok
      have himgs : out.images = imgs := by
        injection hok
      subst himgs
      refine ⟨rfl, hlen, ?_, ?_, ?_⟩
      · intro hnil
        rw [hnil] at hlen
        simp at hlen
      · simp [getImage, hrun]
      · simp [getImageByDescriptor, hrun]
    · exfalso
      simp only [runGetImage, if_pos hlen] at hok
      split at hok <;> cases hok
  · intro hlen
    simp only [runGetImage, if_pos hlen]
    split <;> rename_i hrec <;> simp [hrec]

theorem run_get_image_single_image_witness :
    runGetImage (.ok { failures := [{ failureCode := "ImageNotFound" }] }) =
      .error .imageNotFound ∧
    runGetImage (.ok { images := [{ imageManifest := "BODY" }] }) =
      .ok [{ imageManifest := "BODY" }] ∧
    getImage (.ok { images := [{ imageManifest := "BODY" }] }) =
      .ok { imageManifest := "BODY" } := by
  have h1 := (run_get_image_single_image
    (.ok { failures := [{ failureCode := "ImageNotFound" }] })
    { failures := [{ failureCode := "ImageNotFound" }] } rfl).2 (by decide)
  have h2 := (run_get_image_single_image
    (.ok { images := [{ imageManifest := "BODY" }] })
    { images := [{ imageManifest := "BODY" }] } rfl).1
    [{ imageManifest := "BODY" }] rfl
  exact ⟨by simpa using h1, rfl, h2.2.2.2.1⟩

end EcrResolver
